import Mathlib

/-!
Shallow embedding of the oanda-connector request pipeline
(src/client.rs, src/config.rs, src/error.rs, src/rate_limiter.rs).

The HTTP transport (reqwest) and JSON decoding (serde) are external crates;
they enter the model as parameters: an environment `env : Nat → AttemptResult`
giving the outcome of the i-th HTTP attempt, and a `parse` function standing
for `response.json::<T>()`.  Machine integers (u32, u64) are modelled as `Nat`
with explicit reduction modulo `2 ^ 32` / `2 ^ 64` at the arithmetic
operations where Rust release builds wrap.
-/

namespace OandaConnector

/-- Modulus of Rust's u64 arithmetic. -/
def U64MOD : Nat := 2 ^ 64

/-- Modulus of Rust's u32 arithmetic. -/
def U32MOD : Nat := 2 ^ 32

/-- Transport-level failure of one HTTP attempt (a `reqwest::Error` with no
HTTP response), characterized by the two predicates the retry loop inspects:
`e.is_timeout()` and `e.is_connect()`. -/
structure TransportError where
  is_timeout : Bool
  is_connect : Bool
deriving DecidableEq, Repr

/-- Error enum from src/error.rs.  The `InsufficientBalance` variant (f64
payload, unused by the pipeline) is omitted; `Timeout` carries the seconds
payload `u64` as `Nat`. -/
inductive Error where
  | HttpError (e : TransportError)
  | ApiError (code : Nat) (message : String)
  | RateLimitExceeded (retry_after_seconds : Nat)
  | InvalidInstrument (s : String)
  | InvalidGranularity (s : String)
  | AuthenticationFailed
  | Timeout (seconds : Nat)
  | DeserializationError (msg : String)
  | ConfigError (msg : String)
  | InvalidDateRange (startS endS : String)
deriving DecidableEq, Repr

/-- Configuration struct from src/config.rs.  `timeout_seconds` is u64,
`requests_per_second` and `max_retries` are u32; no arithmetic in the model
overflows them except `max_retries + 1`, reduced mod `U32MOD` where it occurs. -/
structure OandaConfig where
  api_key : String
  account_id : String
  practice : Bool
  base_url : Option String
  timeout_seconds : Nat
  requests_per_second : Nat
  enable_retries : Bool
  max_retries : Nat
deriving DecidableEq, Repr

/-- OandaConfig::validate from src/config.rs (lines 120-147): four checks in
source order, each returning `ConfigError` with the source's message. -/
def OandaConfig.validate (c : OandaConfig) : Except Error Unit :=
  if c.api_key = "" then
    .error (.ConfigError "API key cannot be empty")
  else if c.account_id = "" then
    .error (.ConfigError "Account ID cannot be empty")
  else if c.timeout_seconds = 0 then
    .error (.ConfigError "Timeout must be greater than 0")
  else if c.requests_per_second = 0 then
    .error (.ConfigError "Requests per second must be greater than 0")
  else
    .ok ()

/-- RateLimiter from src/rate_limiter.rs: holds the governor quota, whose
construction via `NonZeroU32::new(requests_per_second).expect(..)` requires a
strictly positive rate. -/
structure RateLimiter where
  requests_per_second : Nat
  pos : 0 < requests_per_second

/-- RateLimiter::new (src/rate_limiter.rs lines 25-34): `NonZeroU32::new`
yields `None` on zero and the `expect` panics; the panic is modelled as
`none`. -/
def RateLimiter.new (requests_per_second : Nat) : Option RateLimiter :=
  if h : 0 < requests_per_second then some ⟨requests_per_second, h⟩ else none

/-- RAII permit marker (src/rate_limiter.rs): a unit-like struct; governor
manages the token lifecycle internally. -/
inductive RateLimitPermit where
  | mk
deriving DecidableEq, Repr

/-- RateLimiter::acquire: waits via `governor.until_ready()` and returns a
permit.  The wait is timing behavior outside the embedding; the function's
Rust type `async fn acquire(&self) -> RateLimitPermit` has no failure path,
which the model mirrors by totality. -/
def RateLimiter.acquire (_ : RateLimiter) : RateLimitPermit := .mk

/-- Outcome of constructing a value in Rust: success, a returned error, or a
panic. -/
inductive BuildResult (α : Type) where
  | ok (a : α)
  | error (e : Error)
  | panicked (msg : String)

/-- OandaClient state: configuration plus the shared rate limiter (the
reqwest::Client::builder() step, whose failure is mapped to `HttpError`, is
assumed to succeed and is not modelled). -/
structure OandaClient where
  config : OandaConfig
  rate_limiter : RateLimiter

/-- OandaClient::new (src/client.rs lines 24-39): validate the configuration,
then build the rate limiter from `requests_per_second` (which panics on 0). -/
def OandaClient.new (config : OandaConfig) : BuildResult OandaClient :=
  match config.validate with
  | .error e => .error e
  | .ok _ =>
    match RateLimiter.new config.requests_per_second with
    | none => .panicked "requests_per_second must be greater than 0"
    | some rl => .ok { config := config, rate_limiter := rl }

/-- Boolean test that a build outcome is a returned `ConfigError`. -/
def isConfigErrorB {α : Type} : BuildResult α → Bool
  | .error (.ConfigError _) => true
  | _ => false

/-- A completed HTTP response as the pipeline observes it: the status code
(`u16`), the `Retry-After` header after `to_str().ok()` (absent or its string
value), and the body text (`text().unwrap_or_default()`). -/
structure HttpResponse where
  status : Nat
  retry_after : Option String
  body : String
deriving DecidableEq, Repr

/-- Result of one invocation of the request closure: a completed response (any
status) or a transport-level error. -/
inductive AttemptResult where
  | ok (resp : HttpResponse)
  | err (e : TransportError)
deriving DecidableEq, Repr

/-- ASCII-decimal digit test. -/
def isAsciiDigit (c : Char) : Bool := '0' ≤ c && c ≤ '9'

/-- Numeric value of a list of decimal digits. -/
def digitsVal (l : List Char) : Nat :=
  l.foldl (fun acc c => acc * 10 + (c.toNat - 48)) 0

/-- Rust's `str::parse::<u64>()`: an optional leading plus sign, then one or
more ASCII digits, rejecting anything else and values exceeding u64::MAX. -/
def rustParseU64 (s : String) : Option Nat :=
  let cs := s.toList
  let ds := match cs with
    | '+' :: rest => rest
    | _ => cs
  if ds = [] then none
  else if ds.all isAsciiDigit then
    let v := digitsVal ds
    if v < U64MOD then some v else none
  else none

/-- Retry-After hint extraction on a 429 (src/client.rs lines 365-370):
`headers().get("Retry-After").and_then(to_str).and_then(parse::<u64>).unwrap_or(60)`. -/
def retryAfterHint (resp : HttpResponse) : Nat :=
  (resp.retry_after.bind rustParseU64).getD 60

/-- handle_response from src/client.rs (lines 331-396): the status-code
classification table.  `parse` stands for `response.json::<T>()`, returning
the payload or serde's error message. -/
def handle_response {α : Type} (parse : String → Except String α)
    (resp : HttpResponse) : Except Error α :=
  if resp.status = 200 then
    match parse resp.body with
    | .ok v => .ok v
    | .error e => .error (.ApiError 0 ("Failed to parse response: " ++ e))
  else if resp.status = 400 then .error (.ApiError 400 resp.body)
  else if resp.status = 401 then .error .AuthenticationFailed
  else if resp.status = 403 then .error .AuthenticationFailed
  else if resp.status = 404 then
    .error (.ApiError 404 ("Resource not found: " ++ resp.body))
  else if resp.status = 429 then
    .error (.RateLimitExceeded (retryAfterHint resp))
  else if resp.status = 500 then .error (.ApiError 500 "OANDA server error")
  else if resp.status = 503 then
    .error (.ApiError 503 "OANDA service temporarily unavailable")
  else .error (.ApiError resp.status resp.body)

/-- Backoff delay for a timeout at attempt counter value `attempts`
(src/client.rs line 312): `100 * 2u64.pow(attempts - 1)` milliseconds, with
u64 release-mode wrapping on both the power and the product. -/
def timeoutDelay (attempts : Nat) : Nat :=
  100 * (2 ^ (attempts - 1) % U64MOD) % U64MOD

/-- Backoff delay for a connection error at attempt counter value `attempts`
(src/client.rs line 318): `500 * 2u64.pow(attempts - 1)` milliseconds, with
u64 release-mode wrapping. -/
def connectDelay (attempts : Nat) : Nat :=
  500 * (2 ^ (attempts - 1) % U64MOD) % U64MOD

/-- Observable trace of one run of request_with_retry: the final result, the
number of loop iterations (`attempts += 1` count, equal to the number of
closure invocations), the number of rate-limiter permits acquired (the
closure body starts with `rate_limiter.acquire()`), and the backoff sleeps in
milliseconds, in order. -/
structure RetryRun where
  result : Except Error HttpResponse
  attempts : Nat
  permits : Nat
  delays : List Nat
deriving Repr

/-- Outcome of a single closure invocation: one permit is acquired, then the
attempt resolves per the environment. -/
def oneShot (r : AttemptResult) : RetryRun :=
  match r with
  | .ok resp => { result := .ok resp, attempts := 1, permits := 1, delays := [] }
  | .err e => { result := .error (.HttpError e), attempts := 1, permits := 1, delays := [] }

/-- The `loop` of request_with_retry (src/client.rs lines 302-327).
`attempts` is the number of attempts already made (the counter before the
`attempts += 1` of the current iteration); `remaining` is
`max_attempts - attempts`, a structural fuel: the source's budget test
`attempts + 1 >= max_attempts` is exactly `remaining <= 1` (and
`remaining = 0` also covers the `max_attempts = 0` case arising from u32
wrap-around of `max_retries + 1`).  A completed response returns
immediately; a transport error returns immediately once the budget is
reached; a timeout or connection error below budget sleeps the class's
exponential delay and loops; any other transport error returns immediately. -/
def retryLoop (env : Nat → AttemptResult) : Nat → Nat → RetryRun
  | 0, attempts | 1, attempts => oneShot (env attempts)
  | r + 2, attempts =>
    match env attempts with
    | .ok resp => { result := .ok resp, attempts := 1, permits := 1, delays := [] }
    | .err e =>
      if e.is_timeout then
        let rest := retryLoop env (r + 1) (attempts + 1)
        { result := rest.result, attempts := rest.attempts + 1,
          permits := rest.permits + 1,
          delays := timeoutDelay (attempts + 1) :: rest.delays }
      else if e.is_connect then
        let rest := retryLoop env (r + 1) (attempts + 1)
        { result := rest.result, attempts := rest.attempts + 1,
          permits := rest.permits + 1,
          delays := connectDelay (attempts + 1) :: rest.delays }
      else
        { result := .error (.HttpError e), attempts := 1, permits := 1, delays := [] }

/-- request_with_retry (src/client.rs lines 290-328): with retries disabled,
a single closure invocation whose transport error is mapped to `HttpError`;
otherwise the retry loop with `max_attempts = max_retries + 1` (u32
arithmetic) starting from `attempts = 0`. -/
def request_with_retry (cfg : OandaConfig) (env : Nat → AttemptResult) : RetryRun :=
  if cfg.enable_retries = false then
    oneShot (env 0)
  else
    retryLoop env ((cfg.max_retries + 1) % U32MOD) 0

/-- Observable trace of one public-API call: the typed result after
handle_response, plus the retry loop's attempt, permit and delay trace. -/
structure PipelineRun (α : Type) where
  result : Except Error α
  attempts : Nat
  permits : Nat
  delays : List Nat

/-- The shared shape of every public request method (get_current_price,
get_account_summary, ...): request_with_retry around the closure, then
handle_response on the completed response. -/
def runPipeline {α : Type} (parse : String → Except String α)
    (cfg : OandaConfig) (env : Nat → AttemptResult) : PipelineRun α :=
  let r := request_with_retry cfg env
  { result :=
      match r.result with
      | .error e => .error e
      | .ok resp => handle_response parse resp,
    attempts := r.attempts, permits := r.permits, delays := r.delays }

/-- get_account_summary (src/client.rs lines 234-250): the generic pipeline
instantiated at the account endpoint; URL construction and the
AccountSummary payload decoding are abstracted into `parse`. -/
def get_account_summary {α : Type} (parse : String → Except String α)
    (cfg : OandaConfig) (env : Nat → AttemptResult) : PipelineRun α :=
  runPipeline parse cfg env

/-- health_check (src/client.rs lines 277-283): run get_account_summary; map
success to `Ok(true)`, `AuthenticationFailed` to `Ok(false)`, and propagate
every other error. -/
def health_check {α : Type} (parse : String → Except String α)
    (cfg : OandaConfig) (env : Nat → AttemptResult) : PipelineRun Bool :=
  let run := get_account_summary parse cfg env
  { result :=
      match run.result with
      | .ok _ => .ok true
      | .error Error.AuthenticationFailed => .ok false
      | .error e => .error e,
    attempts := run.attempts, permits := run.permits, delays := run.delays }

/-- get_candles (src/client.rs lines 134-173): the count guard
(`count > 5000` returns `ConfigError` before the closure is built, so no
permit is acquired and no attempt is issued), then the generic pipeline; the
candles payload decoding and conversion are abstracted into `parse`. -/
def get_candles {α : Type} (parse : String → Except String α)
    (cfg : OandaConfig) (count : Nat) (env : Nat → AttemptResult) : PipelineRun α :=
  if 5000 < count then
    { result := .error (.ConfigError
        ("Count " ++ toString count ++ " exceeds maximum of 5000")),
      attempts := 0, permits := 0, delays := [] }
  else
    runPipeline parse cfg env

/-- Boolean test whether an attempt outcome is a retryable transport error
(timeout or connection class). -/
def isRetryableErr : AttemptResult → Bool
  | .err e => e.is_timeout || e.is_connect
  | .ok _ => false

/-- Delay the loop sleeps after the given failed attempt outcome when the
attempt counter is `attempts` (timeout base 100ms, connect base 500ms,
checked in source order). -/
def attemptDelay : AttemptResult → Nat → Nat
  | .err e, attempts => if e.is_timeout then timeoutDelay attempts else connectDelay attempts
  | .ok _, _ => 0

/-- Boolean test that a pipeline result is the `Timeout` error variant. -/
def isTimeoutVariant : Except Error HttpResponse → Bool
  | .error (.Timeout _) => true
  | _ => false

/-- Fixture configuration mirroring the repository's test_config: retries
enabled, max_retries = 3. -/
def cfgDefault : OandaConfig :=
  { api_key := "test_api_key", account_id := "test_account_id", practice := true,
    base_url := none, timeout_seconds := 10, requests_per_second := 100,
    enable_retries := true, max_retries := 3 }

/-- Fixture configuration with retries disabled. -/
def cfgNoRetry : OandaConfig := { cfgDefault with enable_retries := false }

/-- Fixture configuration with max_retries = 2. -/
def cfgK2 : OandaConfig := { cfgDefault with max_retries := 2 }

/-- Fixture configuration with max_retries = 60. -/
def cfgK60 : OandaConfig := { cfgDefault with max_retries := 60 }

/-- Fixture configuration with max_retries = u32::MAX. -/
def cfgKMax : OandaConfig := { cfgDefault with max_retries := 2 ^ 32 - 1 }

/-- Fixture configuration with a zero requests-per-second quota. -/
def cfgZeroRate : OandaConfig := { cfgDefault with requests_per_second := 0 }

/-- Transport error with `is_timeout()` true. -/
def tErr : TransportError := { is_timeout := true, is_connect := false }

/-- Transport error with `is_connect()` true. -/
def cErr : TransportError := { is_timeout := false, is_connect := true }

/-- A 429 response carrying header `Retry-After: 60`. -/
def resp429 : HttpResponse := { status := 429, retry_after := some "60", body := "" }

/-- A 401 response. -/
def resp401 : HttpResponse := { status := 401, retry_after := none, body := "Unauthorized" }

/-- A 500 response. -/
def resp500 : HttpResponse := { status := 500, retry_after := none, body := "" }

/-- Environment whose every attempt completes with the 429 response. -/
def envRL : Nat → AttemptResult := fun _ => .ok resp429

/-- Environment whose every attempt completes with the 401 response. -/
def env401 : Nat → AttemptResult := fun _ => .ok resp401

/-- Environment whose every attempt completes with the 500 response. -/
def env500 : Nat → AttemptResult := fun _ => .ok resp500

/-- Environment whose every attempt fails with a transport timeout. -/
def envT : Nat → AttemptResult := fun _ => .err tErr

/-- Environment whose every attempt fails with a connection error. -/
def envC : Nat → AttemptResult := fun _ => .err cErr

/-- Trivial payload decoder used to instantiate the generic pipeline in
concrete runs whose responses are never 200. -/
def parseUnit : String → Except String Unit := fun _ => .error "unexpected body"

/-- Multiplication by a constant absorbs an inner reduction mod m. -/
theorem mul_mod_absorb (c x m : Nat) : c * (x % m) % m = c * x % m := by
  rw [Nat.mul_mod, Nat.mod_mod_of_dvd x dvd_rfl, ← Nat.mul_mod]

/-- A completed response at the current attempt ends the retry loop at once,
whatever fuel remains. -/
theorem retryLoop_ok (env : Nat → AttemptResult) (resp : HttpResponse) :
    ∀ d a, env a = .ok resp →
      retryLoop env d a =
        { result := .ok resp, attempts := 1, permits := 1, delays := [] } := by
  intro d a h
  rcases d with _ | _ | r <;> simp [retryLoop, oneShot, h]

/-- request_with_retry on an environment whose first attempt completes:
one attempt, one permit, no delay, for every configuration. -/
theorem request_with_retry_ok (cfg : OandaConfig) (env : Nat → AttemptResult)
    (resp : HttpResponse) (h : env 0 = .ok resp) :
    request_with_retry cfg env =
      { result := .ok resp, attempts := 1, permits := 1, delays := [] } := by
  unfold request_with_retry
  by_cases he : cfg.enable_retries = false
  · simp [he, oneShot, h]
  · simp [he, retryLoop_ok env resp _ 0 h]

/-- When every attempt fails with the same retryable transport error, the
loop consumes its whole fuel: `d` attempts, `d` permits, and the error
surfaces wrapped as `HttpError`. -/
theorem retryLoop_all_err (env : Nat → AttemptResult) (e : TransportError)
    (henv : ∀ n, env n = .err e)
    (hk : e.is_timeout = true ∨ e.is_connect = true) :
    ∀ d a, 1 ≤ d →
      (retryLoop env d a).result = .error (.HttpError e) ∧
      (retryLoop env d a).attempts = d ∧
      (retryLoop env d a).permits = d := by
  intro d
  induction d with
  | zero => intro a h; exact absurd h (by omega)
  | succ d ih =>
    intro a _
    rcases d with _ | r
    · simp [retryLoop, oneShot, henv a]
    · have hrec := ih (a + 1) (by omega)
      rcases hk with ht | hc
      · simp [retryLoop, henv a, ht, hrec.1, hrec.2.1, hrec.2.2]
      · by_cases ht2 : e.is_timeout
        · simp [retryLoop, henv a, ht2, hrec.1, hrec.2.1, hrec.2.2]
        · simp [retryLoop, henv a, ht2, hc, hrec.1, hrec.2.1, hrec.2.2]

/-- Every loop run acquires exactly as many permits as it makes attempts. -/
theorem retryLoop_permits_eq_attempts (env : Nat → AttemptResult) :
    ∀ d a, (retryLoop env d a).permits = (retryLoop env d a).attempts := by
  intro d
  induction d with
  | zero => intro a; cases he : env a <;> simp [retryLoop, oneShot, he]
  | succ d ih =>
    intro a
    rcases d with _ | r
    · cases he : env a <;> simp [retryLoop, oneShot, he]
    · cases he : env a with
      | ok resp => simp [retryLoop, he]
      | err e =>
        by_cases ht : e.is_timeout
        · simp [retryLoop, he, ht, ih (a + 1)]
        · by_cases hc : e.is_connect <;> simp [retryLoop, he, ht, hc, ih (a + 1)]

/-- When the first `j + 1` attempts from position `a` are all retryable
transport failures and fuel allows them all to be retried, the `j`-th
recorded delay is the class delay of the failing attempt, at attempt counter
`a + j + 1`. -/
theorem retryLoop_delay_get (env : Nat → AttemptResult) :
    ∀ j d a, (∀ i, i ≤ j → isRetryableErr (env (a + i)) = true) → j + 2 ≤ d →
      (retryLoop env d a).delays[j]? =
        some (attemptDelay (env (a + j)) (a + j + 1)) := by
  intro j
  induction j with
  | zero =>
    intro d a henv hd
    rcases d with _ | _ | r
    · omega
    · omega
    · have h0 := henv 0 (Nat.le_refl 0)
      rcases he : env a with resp | e
      · rw [show a + 0 = a from rfl, he] at h0
        simp [isRetryableErr] at h0
      · rw [show a + 0 = a from rfl, he] at h0
        simp only [isRetryableErr, Bool.or_eq_true] at h0
        by_cases ht : e.is_timeout
        · simp [retryLoop, he, ht, attemptDelay]
        · have hc : e.is_connect = true := by
            rcases h0 with h0 | h0
            · exact absurd h0 ht
            · exact h0
          simp [retryLoop, he, ht, hc, attemptDelay]
  | succ j ih =>
    intro d a henv hd
    rcases d with _ | _ | r
    · omega
    · omega
    · have h0 := henv 0 (Nat.zero_le _)
      have htail : ∀ i, i ≤ j → isRetryableErr (env (a + 1 + i)) = true := by
        intro i hi
        have := henv (i + 1) (by omega)
        rwa [show a + (i + 1) = a + 1 + i by omega] at this
      have hrec := ih (r + 1) (a + 1) htail (by omega)
      rcases he : env a with resp | e
      · rw [show a + 0 = a from rfl, he] at h0
        simp [isRetryableErr] at h0
      · rw [show a + 0 = a from rfl, he] at h0
        simp only [isRetryableErr, Bool.or_eq_true] at h0
        have harith : a + 1 + j = a + (j + 1) := by omega
        by_cases ht : e.is_timeout
        · simp only [retryLoop, he, ht, if_pos]
          simpa [harith, Nat.add_right_comm] using hrec
        · have hc : e.is_connect = true := by
            rcases h0 with h0 | h0
            · exact absurd h0 ht
            · exact h0
          simp only [retryLoop, he, ht, hc, if_neg, if_pos, Bool.false_eq_true]
          simpa [harith, Nat.add_right_comm] using hrec

/-- C1 (counterexample): with retries enabled and budget remaining
(max_retries = 3), an attempt completing with status 429 and header
`Retry-After: 60` is not followed by any wait or any further attempt: the
pipeline records no delay, stops after one attempt, and returns
`RateLimitExceeded` immediately — refuting that the pipeline waits the hint
before a next attempt. -/
theorem C1_counterexample :
    (runPipeline parseUnit cfgDefault envRL).delays = [] ∧
    (runPipeline parseUnit cfgDefault envRL).attempts = 1 ∧
    (runPipeline parseUnit cfgDefault envRL).result =
      .error (.RateLimitExceeded 60) :=
  ⟨rfl, rfl, rfl⟩

/-- C1 (amended): a request whose HTTP attempt completes with status 429 is
classified as `RateLimitExceeded` carrying the Retry-After hint (60 when
absent or unusable), but the pipeline never retries it: it returns the
failure immediately after that single attempt, with no delay, under every
retry configuration — only transport timeouts and connection errors are
retried. -/
theorem C1_rate_limit_immediate {α : Type} (parse : String → Except String α)
    (cfg : OandaConfig) (env : Nat → AttemptResult) (resp : HttpResponse)
    (hs : resp.status = 429) (h0 : env 0 = .ok resp) :
    (runPipeline parse cfg env).result =
      .error (.RateLimitExceeded (retryAfterHint resp)) ∧
    (runPipeline parse cfg env).attempts = 1 ∧
    (runPipeline parse cfg env).delays = [] := by
  have hr := request_with_retry_ok cfg env resp h0
  refine ⟨?_, ?_, ?_⟩ <;> simp [runPipeline, hr, handle_response, hs]

/-- C1 (witness): the amended theorem applied at a concrete 429 response with
`Retry-After: 60` under a retry-disabled configuration. -/
theorem C1_witness :
    (runPipeline parseUnit cfgNoRetry envRL).result =
      .error (.RateLimitExceeded 60) ∧
    (runPipeline parseUnit cfgNoRetry envRL).attempts = 1 ∧
    (runPipeline parseUnit cfgNoRetry envRL).delays = [] := by
  obtain ⟨h1, h2, h3⟩ := C1_rate_limit_immediate parseUnit cfgNoRetry envRL resp429 rfl rfl
  exact ⟨h1, h2, h3⟩

/-- C3 (confirmed): an attempt completing with status 401 or 403 yields
`AuthenticationFailed` after exactly one attempt, with no delay, for every
retry configuration. -/
theorem C3_auth_no_retry {α : Type} (parse : String → Except String α)
    (cfg : OandaConfig) (env : Nat → AttemptResult) (resp : HttpResponse)
    (hs : resp.status = 401 ∨ resp.status = 403) (h0 : env 0 = .ok resp) :
    (runPipeline parse cfg env).result = .error .AuthenticationFailed ∧
    (runPipeline parse cfg env).attempts = 1 ∧
    (runPipeline parse cfg env).delays = [] := by
  have hr := request_with_retry_ok cfg env resp h0
  rcases hs with hs | hs <;>
    exact ⟨by simp [runPipeline, hr, handle_response, hs],
           by simp [runPipeline, hr], by simp [runPipeline, hr]⟩

/-- C3 (witness): the theorem applied at a concrete 401 response under the
default retry-enabled configuration. -/
theorem C3_witness :
    (runPipeline parseUnit cfgDefault env401).result = .error .AuthenticationFailed ∧
    (runPipeline parseUnit cfgDefault env401).attempts = 1 ∧
    (runPipeline parseUnit cfgDefault env401).delays = [] := by
  obtain ⟨h1, h2, h3⟩ := C3_auth_no_retry parseUnit cfgDefault env401 resp401 (Or.inl rfl) rfl
  exact ⟨h1, h2, h3⟩

/-- C4 (confirmed): with retries disabled the pipeline performs exactly one
attempt, acquires one permit, applies no backoff delay, and returns the
first outcome's classification immediately: a transport error surfaces as
`HttpError`, a completed response goes through handle_response. -/
theorem C4_no_retries_single_attempt {α : Type} (parse : String → Except String α)
    (cfg : OandaConfig) (env : Nat → AttemptResult)
    (h : cfg.enable_retries = false) :
    (runPipeline parse cfg env).attempts = 1 ∧
    (runPipeline parse cfg env).permits = 1 ∧
    (runPipeline parse cfg env).delays = [] ∧
    (runPipeline parse cfg env).result =
      (match env 0 with
       | .ok resp => handle_response parse resp
       | .err e => .error (.HttpError e)) := by
  cases he : env 0 <;>
    simp [runPipeline, request_with_retry, h, oneShot, he]

/-- C4 (witness): the theorem applied at a retry-disabled configuration whose
single attempt fails with a connection error. -/
theorem C4_witness :
    (runPipeline parseUnit cfgNoRetry envC).attempts = 1 ∧
    (runPipeline parseUnit cfgNoRetry envC).permits = 1 ∧
    (runPipeline parseUnit cfgNoRetry envC).delays = [] ∧
    (runPipeline parseUnit cfgNoRetry envC).result = .error (.HttpError cErr) := by
  obtain ⟨h1, h2, h3, h4⟩ := C4_no_retries_single_attempt parseUnit cfgNoRetry envC rfl
  exact ⟨h1, h2, h3, h4⟩

/-- C2 (counterexample): with retries enabled, maxRetries = 2 and every
attempt a transport timeout, the pipeline performs 3 attempts but the final
result is `HttpError` wrapping the timeout transport error — not the
`Timeout` error variant the claim names; moreover at maxRetries = u32::MAX
the computation `max_retries + 1` wraps to 0 and only one attempt occurs,
not K + 1. -/
theorem C2_counterexample :
    (request_with_retry cfgK2 envT).attempts = 3 ∧
    (request_with_retry cfgK2 envT).result = .error (.HttpError tErr) ∧
    isTimeoutVariant (request_with_retry cfgK2 envT).result = false ∧
    (request_with_retry cfgKMax envT).attempts = 1 :=
  ⟨rfl, rfl, rfl, rfl⟩

/-- C2 (amended): with retries enabled and maxRetries = K where K + 1 fits in
u32, an environment in which every attempt fails with the same timeout
transport error causes exactly K + 1 attempts, and the final result is the
last observed failure wrapped as `HttpError` of that timeout error (not a
generic too-many-retries error, and not the `Timeout` variant). -/
theorem C2_exhaust_timeouts (cfg : OandaConfig) (env : Nat → AttemptResult)
    (e : TransportError) (hen : cfg.enable_retries = true)
    (hK : cfg.max_retries + 1 < U32MOD) (ht : e.is_timeout = true)
    (henv : ∀ n, env n = .err e) :
    (request_with_retry cfg env).attempts = cfg.max_retries + 1 ∧
    (request_with_retry cfg env).result = .error (.HttpError e) := by
  have hmod : (cfg.max_retries + 1) % U32MOD = cfg.max_retries + 1 :=
    Nat.mod_eq_of_lt hK
  have h := retryLoop_all_err env e henv (Or.inl ht) (cfg.max_retries + 1) 0 (by omega)
  unfold request_with_retry
  rw [hen]
  simp only [Bool.true_eq_false, if_false, hmod]
  exact ⟨h.2.1, h.1⟩

/-- C2 (witness): the amended theorem applied at maxRetries = 2 with a
permanently-timing-out environment. -/
theorem C2_witness :
    (request_with_retry cfgK2 envT).attempts = cfgK2.max_retries + 1 ∧
    (request_with_retry cfgK2 envT).result = .error (.HttpError tErr) := by
  obtain ⟨h1, h2⟩ :=
    C2_exhaust_timeouts cfgK2 envT tErr rfl (by norm_num [cfgK2, cfgDefault, U32MOD])
      rfl (fun n => rfl)
  exact ⟨h1, h2⟩

/-- C5 (counterexample): the delays are u64 arithmetic, so the exponential
formula wraps: with maxRetries = 60 and every attempt a timeout, the delay
before the 59th retry is 100 * 2^58 reduced mod 2^64, which differs from the
exact value 100 * 2^58 the claim demands. -/
theorem C5_counterexample :
    (request_with_retry cfgK60 envT).delays[58]? = some 10376293541461622784 ∧
    (10376293541461622784 : Nat) ≠ 100 * 2 ^ 58 :=
  ⟨rfl, by norm_num⟩

/-- C5 (amended): for every n ≥ 1, when retries are enabled, the attempt
budget allows the n-th retry (n ≤ maxRetries, with maxRetries + 1 fitting in
u32), and the first n attempts fail with retryable transport errors, the
delay before the n-th retry is 100·2^(n-1) ms reduced mod 2^64 when the n-th
failure is a timeout, and 500·2^(n-1) ms reduced mod 2^64 when it is a
connection error — exact integer milliseconds whenever the product is below
2^64. -/
theorem C5_backoff_delays (cfg : OandaConfig) (env : Nat → AttemptResult)
    (n : Nat) (e : TransportError) (hen : cfg.enable_retries = true)
    (hK : cfg.max_retries + 1 < U32MOD) (hn : 1 ≤ n)
    (hb : n ≤ cfg.max_retries)
    (henv : ∀ i, i < n → isRetryableErr (env i) = true)
    (hlast : env (n - 1) = .err e) :
    (e.is_timeout = true →
      (request_with_retry cfg env).delays[n - 1]? =
        some (100 * 2 ^ (n - 1) % U64MOD)) ∧
    (e.is_timeout = false → e.is_connect = true →
      (request_with_retry cfg env).delays[n - 1]? =
        some (500 * 2 ^ (n - 1) % U64MOD)) := by
  have hmod : (cfg.max_retries + 1) % U32MOD = cfg.max_retries + 1 :=
    Nat.mod_eq_of_lt hK
  have hget := retryLoop_delay_get env (n - 1) ((cfg.max_retries + 1) % U32MOD) 0
      (fun i hi => by
        have := henv i (by omega)
        simpa using this)
      (by rw [hmod]; omega)
  have hone : n - 1 + 1 = n := by omega
  simp only [Nat.zero_add] at hget
  rw [hone, hlast] at hget
  have hrun : (request_with_retry cfg env).delays =
      (retryLoop env ((cfg.max_retries + 1) % U32MOD) 0).delays := by
    unfold request_with_retry
    rw [hen]
    simp only [Bool.true_eq_false, if_false]
  constructor
  · intro ht
    rw [hrun, hget]
    simp [attemptDelay, ht, timeoutDelay, mul_mod_absorb]
  · intro ht hc
    rw [hrun, hget]
    simp [attemptDelay, ht, connectDelay, mul_mod_absorb]

/-- C5 (witness): the amended theorem applied at the default configuration
with two consecutive timeouts, yielding a 200 ms delay before the second
retry. -/
theorem C5_witness :
    (request_with_retry cfgDefault envT).delays[1]? = some 200 := by
  have h := (C5_backoff_delays cfgDefault envT 2 tErr rfl
      (by norm_num [cfgDefault, U32MOD]) (by omega)
      (by norm_num [cfgDefault]) (fun i hi => rfl) rfl).1 rfl
  norm_num [U64MOD] at h
  exact h

/-- C6 (confirmed): a completed 429 response is classified as
`RateLimitExceeded` whose hint is the `Retry-After` header parsed as integer
seconds (u64 parse), defaulting to 60 when the header is absent or does not
parse. -/
theorem C6_rate_limit_hint {α : Type} (parse : String → Except String α)
    (resp : HttpResponse) (hs : resp.status = 429) :
    handle_response parse resp = .error (.RateLimitExceeded (retryAfterHint resp)) ∧
    (resp.retry_after = none → retryAfterHint resp = 60) ∧
    (∀ s, resp.retry_after = some s → rustParseU64 s = none →
      retryAfterHint resp = 60) ∧
    (∀ s k, resp.retry_after = some s → rustParseU64 s = some k →
      retryAfterHint resp = k) := by
  refine ⟨by simp [handle_response, hs], ?_, ?_, ?_⟩
  · intro h; simp [retryAfterHint, h]
  · intro s h hp; simp [retryAfterHint, h, hp]
  · intro s k h hp; simp [retryAfterHint, h, hp]

/-- C6 (witness): the theorem applied at the concrete 429 response with
header `Retry-After: 60`, whose hint parses to 60. -/
theorem C6_witness :
    handle_response parseUnit resp429 = .error (.RateLimitExceeded 60) := by
  have h := (C6_rate_limit_hint parseUnit resp429 rfl).1
  exact h

/-- C7 (confirmed): a configuration with a zero requests-per-second quota
makes client construction return a `ConfigError` (validation precedes the
limiter build), the rate limiter's own constructor refuses the zero quota
(the modelled panic), and `acquire` on any successfully constructed limiter
always returns a permit — its Rust signature has no failure path. -/
theorem C7_zero_rate_fails_construction (cfg : OandaConfig)
    (h : cfg.requests_per_second = 0) :
    isConfigErrorB (OandaClient.new cfg) = true ∧
    RateLimiter.new cfg.requests_per_second = none ∧
    (∀ rps l, RateLimiter.new rps = some l → l.acquire = RateLimitPermit.mk) := by
  refine ⟨?_, by simp [RateLimiter.new, h], fun rps l _ => rfl⟩
  unfold OandaClient.new OandaConfig.validate
  by_cases h1 : cfg.api_key = "" <;> by_cases h2 : cfg.account_id = "" <;>
    by_cases h3 : cfg.timeout_seconds = 0 <;>
      simp [h1, h2, h3, h, isConfigErrorB]

/-- C7 (witness): the theorem applied at the concrete zero-rate
configuration. -/
theorem C7_witness :
    RateLimiter.new 0 = none ∧ isConfigErrorB (OandaClient.new cfgZeroRate) = true := by
  obtain ⟨h1, h2, _⟩ := C7_zero_rate_fails_construction cfgZeroRate rfl
  exact ⟨h2, h1⟩

/-- C8 (confirmed): every pipeline run acquires exactly one rate-limiter
permit per attempt — the permit count always equals the attempt count, so a
request performing k attempts consumes exactly k permits and no permit is
reused across retries. -/
theorem C8_one_permit_per_attempt {α : Type} (parse : String → Except String α)
    (cfg : OandaConfig) (env : Nat → AttemptResult) :
    (runPipeline parse cfg env).permits = (runPipeline parse cfg env).attempts := by
  by_cases h : cfg.enable_retries = false
  · cases he : env 0 <;> simp [runPipeline, request_with_retry, h, oneShot, he]
  · simp only [runPipeline, request_with_retry, h, if_false]
    exact retryLoop_permits_eq_attempts env _ 0

/-- C9 (confirmed): get_candles with count > 5000 returns the `ConfigError`
immediately, with zero permits acquired, zero attempts, and no delay; with
count ≤ 5000 the guard does not trigger and the run is exactly the generic
pipeline. -/
theorem C9_candles_count_guard {α : Type} (parse : String → Except String α)
    (cfg : OandaConfig) (env : Nat → AttemptResult) (count : Nat) :
    (5000 < count →
      get_candles parse cfg count env =
        { result := .error (.ConfigError
            ("Count " ++ toString count ++ " exceeds maximum of 5000")),
          attempts := 0, permits := 0, delays := [] }) ∧
    (count ≤ 5000 →
      get_candles parse cfg count env = runPipeline parse cfg env) := by
  constructor
  · intro h; simp [get_candles, h]
  · intro h; simp [get_candles, Nat.not_lt.mpr h]

/-- C9 (witness): the theorem applied at count = 5001 (guard fires, zero
permits and attempts) and at count = 100 (guard does not fire). -/
theorem C9_witness :
    get_candles parseUnit cfgDefault 5001 env401 =
      { result := .error (.ConfigError "Count 5001 exceeds maximum of 5000"),
        attempts := 0, permits := 0, delays := [] } ∧
    get_candles parseUnit cfgDefault 100 env401 =
      runPipeline parseUnit cfgDefault env401 := by
  have h1 := (C9_candles_count_guard parseUnit cfgDefault env401 5001).1 (by norm_num)
  have h2 := (C9_candles_count_guard parseUnit cfgDefault env401 100).2 (by norm_num)
  exact ⟨h1, h2⟩

/-- C10 (confirmed): health_check returns `Ok(true)` exactly when the
account-summary request succeeds, `Ok(false)` exactly when it fails with
`AuthenticationFailed`, and propagates every other error unchanged. -/
theorem C10_health_check {α : Type} (parse : String → Except String α)
    (cfg : OandaConfig) (env : Nat → AttemptResult) :
    ((health_check parse cfg env).result = .ok true ↔
      ∃ s, (get_account_summary parse cfg env).result = .ok s) ∧
    ((health_check parse cfg env).result = .ok false ↔
      (get_account_summary parse cfg env).result = .error .AuthenticationFailed) ∧
    (∀ e, e ≠ Error.AuthenticationFailed →
      ((health_check parse cfg env).result = .error e ↔
        (get_account_summary parse cfg env).result = .error e)) := by
  have hhc : (health_check parse cfg env).result =
      (match (get_account_summary parse cfg env).result with
       | .ok _ => .ok true
       | .error Error.AuthenticationFailed => .ok false
       | .error e => .error e) := rfl
  rcases hr : (get_account_summary parse cfg env).result with e | s
  · rw [hr] at hhc
    cases e
    case AuthenticationFailed =>
      refine ⟨by simp [hhc, hr], by simp [hhc, hr], ?_⟩
      intro e2 hne
      rw [hhc]
      constructor
      · intro hcon; exact absurd hcon (by simp)
      · intro hcon
        have h2 : Error.AuthenticationFailed = e2 := by injection hcon
        exact absurd h2.symm hne
    all_goals
      refine ⟨by simp [hhc, hr], by simp [hhc, hr], ?_⟩
      intro e2 hne
      simp [hhc, hr]
  · rw [hr] at hhc
    refine ⟨by simp [hhc, hr], by simp [hhc, hr], ?_⟩
    intro e2 hne
    simp [hhc, hr]

/-- C10 (witness): the theorem applied at a concrete environment whose
account-summary request fails with 401, so health_check returns Ok(false). -/
theorem C10_witness :
    (health_check parseUnit cfgDefault env401).result = .ok false :=
  (C10_health_check parseUnit cfgDefault env401).2.1.mpr rfl

end OandaConnector
